import Mathlib

/-!
Verification of the U-Boot platform configuration fragment
`software/petalinux/krm/project-spec/meta-user/recipes-bsp/u-boot/files/platform-top.h`
from realtimeradio/souk-firmware.

The fragment is eleven lines of C preprocessor text:

  #include <configs/xilinx_zynqmp.h>
  #define CONFIG_BOOTCOMMAND "run bootcmd_pxe"
  #undef BOOT_TARGET_DEVICES
  #define BOOT_TARGET_DEVICES(func) func(PXE, pxe, na) func(MMC, mmc, 1)
      func(MMC, mmc, 0) func(USB, usb, 0) func(DHCP, dhcp, na)

We embed it at two levels:
* a syntactic level, `platformTopDirectives`, the ordered list of
  preprocessor directives making up the file, together with a small
  environment semantics (`applyDirective`, `fragmentEnv`) describing the
  effect of the fragment on a macro table populated by the vendor header;
* a semantic level, the Lean function `BOOT_TARGET_DEVICES`, which is the
  shallow embedding of the function-like macro: applied to a generator it
  produces, in order, the generator's result on each of the five
  (class, transport, qualifier) argument triples written in the source,
  and the string constant `CONFIG_BOOTCOMMAND`.
-/

/-- Device interface classes appearing as the first macro argument in the
source: `PXE`, `MMC`, `USB`, `DHCP`. -/
inductive DeviceClass : Type
  | PXE : DeviceClass
  | MMC : DeviceClass
  | USB : DeviceClass
  | DHCP : DeviceClass
deriving DecidableEq, Repr

/-- A boot target entry: the (interface class, transport token, instance
qualifier token) triple handed to the generator for one device. The
qualifier is the literal token from the source: a decimal instance index
such as "1" or "0", or "na" for the network transports. -/
structure BootTarget : Type where
  devClass : DeviceClass
  transport : String
  qualifier : String
deriving DecidableEq, Repr

/-- Shallow embedding of the function-like macro `BOOT_TARGET_DEVICES(func)`
defined on lines 6-11 of platform-top.h: the expansion is the sequence of
invocations of `func`, in source order, on the five literal argument
triples. -/
def BOOT_TARGET_DEVICES {α : Type} (func : DeviceClass → String → String → α) : List α :=
  [ func DeviceClass.PXE "pxe" "na"
  , func DeviceClass.MMC "mmc" "1"
  , func DeviceClass.MMC "mmc" "0"
  , func DeviceClass.USB "usb" "0"
  , func DeviceClass.DHCP "dhcp" "na" ]

/-- Shallow embedding of the object-like macro `CONFIG_BOOTCOMMAND` defined
on line 3 of platform-top.h: the literal string it expands to. -/
def CONFIG_BOOTCOMMAND : String := "run bootcmd_pxe"

/-- The transport name selected by the default boot command: the suffix of
`CONFIG_BOOTCOMMAND` after the fixed prefix "run bootcmd_" (12 characters). -/
def bootcmdTransport : String := CONFIG_BOOTCOMMAND.drop 12

/-- Whether a token is a decimal numeral, i.e. an integer instance index
such as the "1" and "0" qualifiers of the MMC and USB entries. -/
def isDecimalToken (s : String) : Bool :=
  !s.data.isEmpty && s.data.all Char.isDigit

/-- The body recorded for a preprocessor definition: either an object-like
replacement text or a function-like macro with parameter list and body. -/
inductive PPDef : Type
  | obj : (body : String) → PPDef
  | fnlike : (params : List String) → (body : String) → PPDef
deriving DecidableEq, Repr

/-- A C preprocessor directive, as used by platform-top.h. -/
inductive Directive : Type
  | inc : (path : String) → Directive
  | undef : (name : String) → Directive
  | defn : (name : String) → (d : PPDef) → Directive
deriving DecidableEq, Repr

/-- Syntactic embedding of platform-top.h: its four preprocessor directives
in source order. -/
def platformTopDirectives : List Directive :=
  [ Directive.inc "configs/xilinx_zynqmp.h"
  , Directive.defn "CONFIG_BOOTCOMMAND" (PPDef.obj "\"run bootcmd_pxe\"")
  , Directive.undef "BOOT_TARGET_DEVICES"
  , Directive.defn "BOOT_TARGET_DEVICES"
      (PPDef.fnlike ["func"]
        "func(PXE, pxe, na) func(MMC, mmc, 1) func(MMC, mmc, 0) func(USB, usb, 0) func(DHCP, dhcp, na)") ]

/-- A macro table: the set of currently defined preprocessor symbols with
their definitions. -/
abbrev PPEnv : Type := String → Option PPDef

/-- Effect of one directive on the macro table. The `vendor` parameter is
the macro table produced by the included vendor header, so `inc` installs
it (the fragment starts from an empty table, hence merging is trivial);
`undef` removes a symbol; `defn` (re)defines one. -/
def applyDirective (vendor : PPEnv) (env : PPEnv) : Directive → PPEnv
  | Directive.inc _ => vendor
  | Directive.undef n => fun m => if m = n then none else env m
  | Directive.defn n d => fun m => if m = n then some d else env m

/-- The macro table after processing all of platform-top.h, starting from
the empty table, where the vendor header's contribution is `vendor`. -/
def fragmentEnv (vendor : PPEnv) : PPEnv :=
  platformTopDirectives.foldl (applyDirective vendor) (fun _ => none)

/-- The name a directive defines, if it is a `#define`. -/
def Directive.definesName : Directive → Option String
  | Directive.defn n _ => some n
  | _ => none

/-- Names defined by a directive list, in order. -/
def definedNames (ds : List Directive) : List String :=
  ds.filterMap Directive.definesName

/-- The definitions a directive list gives to a particular symbol. -/
def definitionsOf (ds : List Directive) (n : String) : List PPDef :=
  ds.filterMap fun d =>
    match d with
    | Directive.defn m b => if m = n then some b else none
    | _ => none

/-- Whether a directive list contains a `#define` of the given name. -/
def hasDefineOf (ds : List Directive) (n : String) : Bool :=
  ds.any fun d => d.definesName = some n

/-- Whether the list uses the undefine-then-redefine pattern for a symbol:
some `#undef` of the symbol occurs, and a `#define` of the same symbol
occurs later in the list. -/
def undefThenDefine : List Directive → String → Bool
  | [], _ => false
  | Directive.undef m :: ds, n =>
      if m = n then hasDefineOf ds n else undefThenDefine ds n
  | _ :: ds, n => undefThenDefine ds n

/-- Expansion of an occurrence of `BOOT_TARGET_DEVICES(func)` in a given
macro table: it succeeds with the shallow expansion exactly when the symbol
is defined, and leaves the macro table unchanged (textual substitution has
no effect on the table). Returns the produced fragment list together with
the table after expansion. -/
def expandBootTargets {α : Type} (env : PPEnv)
    (func : DeviceClass → String → String → α) : Option (List α) × PPEnv :=
  match env "BOOT_TARGET_DEVICES" with
  | some _ => (some (BOOT_TARGET_DEVICES func), env)
  | none => (none, env)

/-- Refinement target taken from the spec's own words (section 2): the Boot
Device Priority List as an ordered sequence of (interface-class, transport,
instance-qualifier) triples: (PXE, pxe, n/a), (MMC, mmc, 1), (MMC, mmc, 0),
(USB, usb, 0), (DHCP, dhcp, n/a), with "n/a" written as the source token
"na". -/
def specBootPriorityList : List BootTarget :=
  [ ⟨DeviceClass.PXE, "pxe", "na"⟩
  , ⟨DeviceClass.MMC, "mmc", "1"⟩
  , ⟨DeviceClass.MMC, "mmc", "0"⟩
  , ⟨DeviceClass.USB, "usb", "0"⟩
  , ⟨DeviceClass.DHCP, "dhcp", "na"⟩ ]

/-- C1: for every build (i.e. for every generator), expanding
`BOOT_TARGET_DEVICES` yields exactly 5 fragments, and the underlying entry
sequence is, in order, PXE, MMC(1), MMC(0), USB(0), DHCP — the spec's Boot
Device Priority List. -/
theorem boot_target_devices_has_five_fixed_entries :
    (∀ {α : Type} (func : DeviceClass → String → String → α),
      (BOOT_TARGET_DEVICES func).length = 5) ∧
    BOOT_TARGET_DEVICES BootTarget.mk = specBootPriorityList :=
  ⟨fun _ => rfl, rfl⟩

/-- C2: with the generator producing "try " followed by the transport and
the qualifier, the expansion is literally the five strings
"try pxena", "try mmc1", "try mmc0", "try usb0", "try dhcpna", in order. -/
theorem boot_target_devices_try_generator :
    BOOT_TARGET_DEVICES (fun _ t q => "try " ++ t ++ q) =
      ["try pxena", "try mmc1", "try mmc0", "try usb0", "try dhcpna"] := by
  decide

/-- C3: the fragment gives `CONFIG_BOOTCOMMAND` exactly one definition,
the object-like literal "run bootcmd_pxe", and that value selects PXE
network boot (its target suffix after "run bootcmd_" is "pxe"). -/
theorem config_bootcommand_single_pxe_literal :
    definitionsOf platformTopDirectives "CONFIG_BOOTCOMMAND" =
      [PPDef.obj "\"run bootcmd_pxe\""] ∧
    CONFIG_BOOTCOMMAND = "run bootcmd_pxe" ∧
    bootcmdTransport = "pxe" := by
  refine ⟨by decide, rfl, by decide⟩

/-- C4 counterexample: it is false that both overridden macros follow the
undefine-then-redefine pattern in platform-top.h; `CONFIG_BOOTCOMMAND` is
defined with no preceding `#undef`. -/
theorem not_both_macros_undef_then_define :
    ¬ (undefThenDefine platformTopDirectives "CONFIG_BOOTCOMMAND" = true ∧
       undefThenDefine platformTopDirectives "BOOT_TARGET_DEVICES" = true) := by
  decide

/-- C4 amended: the fragment defines both configuration points, but only
`BOOT_TARGET_DEVICES` uses the undefine-then-redefine pattern;
`CONFIG_BOOTCOMMAND` is defined directly, with no preceding `#undef`. -/
theorem undef_then_define_only_for_boot_target_devices :
    undefThenDefine platformTopDirectives "BOOT_TARGET_DEVICES" = true ∧
    undefThenDefine platformTopDirectives "CONFIG_BOOTCOMMAND" = false ∧
    hasDefineOf platformTopDirectives "CONFIG_BOOTCOMMAND" = true ∧
    hasDefineOf platformTopDirectives "BOOT_TARGET_DEVICES" = true := by
  decide

/-- C5: for every generator, the expansion of `BOOT_TARGET_DEVICES` equals
the map of the generator over the spec's priority-list triples, in list
order, with nothing else interleaved. -/
theorem boot_target_devices_is_map_over_priority_list :
    ∀ {α : Type} (func : DeviceClass → String → String → α),
      BOOT_TARGET_DEVICES func =
        specBootPriorityList.map (fun e => func e.devClass e.transport e.qualifier) :=
  fun _ => rfl

/-- C6: expansion is pure: expanding `BOOT_TARGET_DEVICES` twice in
succession with the same generator — the second expansion running in the
macro table left by the first — produces identical outputs, and the macro
table is unchanged. -/
theorem boot_target_devices_expansion_idempotent :
    ∀ {α : Type} (env : PPEnv) (func : DeviceClass → String → String → α),
      (expandBootTargets env func).1 =
        (expandBootTargets (expandBootTargets env func).2 func).1 ∧
      (expandBootTargets env func).2 = env := by
  intro α env func
  cases h : env "BOOT_TARGET_DEVICES" <;> simp [expandBootTargets, h]

/-- C7: the fragment defines exactly two symbols, `CONFIG_BOOTCOMMAND` and
`BOOT_TARGET_DEVICES`, and for any vendor macro table every other symbol
is left exactly as the vendor header set it. -/
theorem fragment_defines_exactly_two_symbols_frame :
    definedNames platformTopDirectives = ["CONFIG_BOOTCOMMAND", "BOOT_TARGET_DEVICES"] ∧
    ∀ (vendor : PPEnv) (n : String),
      n ≠ "CONFIG_BOOTCOMMAND" → n ≠ "BOOT_TARGET_DEVICES" →
      fragmentEnv vendor n = vendor n := by
  refine ⟨by decide, ?_⟩
  intro vendor n h1 h2
  simp [fragmentEnv, platformTopDirectives, applyDirective, h1, h2]

/-- C7 witness: at the concrete symbol "CONFIG_FOO" and a concrete vendor
table, the fragment leaves the vendor's definition untouched. -/
theorem fragment_defines_exactly_two_symbols_frame_witness :
    ("CONFIG_FOO" ≠ "CONFIG_BOOTCOMMAND" ∧ "CONFIG_FOO" ≠ "BOOT_TARGET_DEVICES") ∧
    fragmentEnv (fun _ => some (PPDef.obj "vendorvalue")) "CONFIG_FOO" =
      some (PPDef.obj "vendorvalue") :=
  ⟨⟨by decide, by decide⟩,
    fragment_defines_exactly_two_symbols_frame.2
      (fun _ => some (PPDef.obj "vendorvalue")) "CONFIG_FOO" (by decide) (by decide)⟩

/-- C8: after the fragment is processed, expanding `BOOT_TARGET_DEVICES`
is total for every generator: it always succeeds, producing the five-entry
fragment sequence, with no failure branch at this layer. -/
theorem boot_target_devices_expansion_total :
    ∀ {α : Type} (vendor : PPEnv) (func : DeviceClass → String → String → α),
      (expandBootTargets (fragmentEnv vendor) func).1 = some (BOOT_TARGET_DEVICES func) ∧
      (BOOT_TARGET_DEVICES func).length = 5 :=
  fun _ _ => ⟨rfl, rfl⟩

/-- C9: the default boot command and the priority list agree on the
preferred boot source: the first entry of the device list is the PXE entry
and its transport equals the transport named by `CONFIG_BOOTCOMMAND`. -/
theorem bootcommand_agrees_with_first_priority_entry :
    (BOOT_TARGET_DEVICES BootTarget.mk).head? =
      some ⟨DeviceClass.PXE, "pxe", "na"⟩ ∧
    ((BOOT_TARGET_DEVICES BootTarget.mk).head?).map BootTarget.transport =
      some bootcmdTransport ∧
    bootcmdTransport = "pxe" := by
  decide

/-- C10: the five (transport, qualifier) pairs of the device list are
pairwise distinct; the network transports pxe and dhcp carry the
qualifier "na"; the storage transports mmc and usb carry decimal instance
qualifiers, and the qualifier sequence is na, 1, 0, 0, na. -/
theorem boot_target_list_well_formed :
    ((BOOT_TARGET_DEVICES BootTarget.mk).map
        (fun e => (e.transport, e.qualifier))).Nodup ∧
    ((BOOT_TARGET_DEVICES BootTarget.mk).all
        (fun e =>
          ((e.transport == "pxe" || e.transport == "dhcp") && e.qualifier == "na") ||
          ((e.transport == "mmc" || e.transport == "usb") && isDecimalToken e.qualifier))) = true ∧
    (BOOT_TARGET_DEVICES BootTarget.mk).map BootTarget.qualifier =
      ["na", "1", "0", "0", "na"] := by
  refine ⟨by decide, by decide, by decide⟩
